import Mathlib

/-!
Verification of the fb_automation content-generation and publication core.

The Python source (facebook_integration/services and facebook_integration/tasks)
is shallowly embedded: Django model rows become structures, the database a list
of rows or a lookup function, and the external provider and Graph API calls
become oracle functions supplied as parameters. Machine behaviour that the
claims depend on (ordering, dedup, short-circuit, error aggregation, the
per-destination loop with its early continue statements) is translated
line by line from the source.
-/

namespace FbAutomation

/-- One row of the AIConfiguration Django model (facebook_integration/models.py).
Field defaults follow the model declaration; `created_at` is an abstract
monotone timestamp and `id` the primary key. -/
structure AIConfiguration where
  id : Nat
  name : String
  description : String := ""
  provider : String := "openai"
  model : String := "gpt-3.5-turbo"
  max_tokens : Nat := 500
  temperature : ℚ := 7/10
  include_hashtags : Bool := true
  max_hashtags : Nat := 5
  include_emojis : Bool := true
  is_default : Bool := false
  created_at : Nat
deriving DecidableEq, Repr

/-- Outcome of one provider adapter call (the bodies of `_generate_with_openai`
and `_generate_with_gemini` seen from the orchestrator: either a returned text
or a raised exception whose str() is the message). -/
inductive CallOutcome where
  | ok (text : String)
  | err (msg : String)
deriving DecidableEq, Repr

/-- Outcome of `generate_text_with_fallback`: a returned text or a raised
RuntimeError message. -/
inductive TextGenOutcome where
  | ok (text : String)
  | error (msg : String)
deriving DecidableEq, Repr

/-- A run of the orchestrator: its outcome plus the configurations whose
provider was actually invoked, in invocation order. -/
structure FallbackRun where
  outcome : TextGenOutcome
  invoked : List AIConfiguration
deriving DecidableEq, Repr

/-- Provider resolution in the fallback loop: use the `provider` field when
truthy, otherwise infer from the model-name prefix
(text_generation.py lines 148-156). -/
def identifyProvider (cfg : AIConfiguration) : String :=
  if cfg.provider ≠ "" then cfg.provider
  else
    let m := cfg.model.toLower
    if m.startsWith "gpt" || m.startsWith "o" then "openai"
    else if m.startsWith "gemini" then "gemini"
    else "desconhecido"

/-- A config is attempted only when its provider resolves to openai or gemini;
anything else is skipped with a warning (text_generation.py lines 180-186). -/
def knownProvider (cfg : AIConfiguration) : Bool :=
  identifyProvider cfg == "openai" || identifyProvider cfg == "gemini"

/-- Stable insertion by ascending `created_at`. -/
def insertByCreated (a : AIConfiguration) : List AIConfiguration → List AIConfiguration
  | [] => [a]
  | b :: bs => if b.created_at ≤ a.created_at then b :: insertByCreated a bs else a :: b :: bs

/-- Sort by ascending `created_at` (stable, processing rows in table order). -/
def sortByCreated (l : List AIConfiguration) : List AIConfiguration :=
  l.foldl (fun acc c => insertByCreated c acc) []

/-- `AIConfiguration.objects.all().order_by("-is_default", "created_at")`:
default rows first, then the rest, each group by ascending creation time. -/
def orderAllConfigs (registry : List AIConfiguration) : List AIConfiguration :=
  sortByCreated (registry.filter (fun c => c.is_default)) ++
    sortByCreated (registry.filter (fun c => !c.is_default))

/-- Append `cfg` unless a config with the same primary key is already present
(Django `cfg not in configs_to_try`, model equality being pk equality). -/
def appendIfNewById (acc : List AIConfiguration) (cfg : AIConfiguration) : List AIConfiguration :=
  if acc.any (fun c => c.id == cfg.id) then acc else acc ++ [cfg]

/-- The ordered attempt list built by the orchestrator: the explicitly passed
config first, then every registry row in `order_by` order, skipping pk
duplicates (text_generation.py lines 119-137). -/
def buildConfigsToTry (explicit : Option AIConfiguration)
    (allConfigs : List AIConfiguration) : List AIConfiguration :=
  allConfigs.foldl appendIfNewById (match explicit with | some c => [c] | none => [])

def configsToTryOf (explicit : Option AIConfiguration)
    (registry : List AIConfiguration) : List AIConfiguration :=
  buildConfigsToTry explicit (orderAllConfigs registry)

/-- The row created by `_get_default_ai_config` when no default exists:
`AIConfiguration.objects.create(name="Configuração Padrão", is_default=True)`,
every other field taking its model default. The fresh pk and timestamp are
fixed at 1 and 0 in the model. -/
def defaultAIConfiguration : AIConfiguration :=
  { id := 1, name := "Configuração Padrão", is_default := true, created_at := 0 }

/-- `_get_default_ai_config` (text_generation.py lines 12-19): the first
default row if one exists, else the freshly created default row. -/
def get_default_ai_config (registry : List AIConfiguration) : AIConfiguration :=
  match registry.find? (fun c => c.is_default) with
  | some c => c
  | none => defaultAIConfiguration

/-- The fallback loop (text_generation.py lines 146-236). `oracle` closes over
the prompt and context and gives each configuration its provider-call outcome;
`total` is `len(configs_to_try)` used in the aggregate message; `lastError`
and `invoked` thread the loop state. -/
def tryConfigs (oracle : AIConfiguration → CallOutcome) (total : Nat) :
    List AIConfiguration → Option String → List AIConfiguration → FallbackRun
  | [], lastError, invoked =>
    match lastError with
    | some e =>
        ⟨TextGenOutcome.error
          ("Todas as " ++ toString total ++ " configs falharam. Último erro: " ++ e), invoked⟩
    | none => ⟨TextGenOutcome.error "Nenhuma configuração de IA válida para gerar texto", invoked⟩
  | cfg :: rest, lastError, invoked =>
    if knownProvider cfg then
      match oracle cfg with
      | CallOutcome.ok t => ⟨TextGenOutcome.ok t, invoked ++ [cfg]⟩
      | CallOutcome.err m => tryConfigs oracle total rest (some m) (invoked ++ [cfg])
    else
      tryConfigs oracle total rest lastError invoked

/-- `generate_text_with_fallback` (text_generation.py lines 107-236). -/
def generate_text_with_fallback (oracle : AIConfiguration → CallOutcome)
    (explicit : Option AIConfiguration) (registry : List AIConfiguration) : FallbackRun :=
  let configsToTry := configsToTryOf explicit registry
  let configsToTry :=
    if configsToTry.isEmpty then [get_default_ai_config registry] else configsToTry
  tryConfigs oracle configsToTry.length configsToTry none []

/-- Spec-side ordering (spec §4.2): explicit config first, then the system
default, then the remaining configs by ascending creation time, duplicates
removed by identity. Stated for comparison with `configsToTryOf`. -/
def specOrderedConfigs (explicit : Option AIConfiguration)
    (registry : List AIConfiguration) : List AIConfiguration :=
  ((match explicit with | some c => [c] | none => []) ++
      registry.filter (fun c => c.is_default) ++
      sortByCreated (registry.filter (fun c => !c.is_default))).foldl appendIfNewById []

/-! Image-prompt and image generation (services/image_prompt_generation.py and
services/image_generation.py). The per-config helpers `_generate_with_openai`
and `_generate_with_gemini` of the prompt module catch every exception and
return None, so each attempt is an `Option String`; the loop treats an empty
string as a failed attempt (`if result:`). -/

/-- The loop of `generate_image_prompt_with_fallback`
(image_prompt_generation.py lines 111-158). -/
def imagePromptLoop (oracle : AIConfiguration → Option String) :
    List AIConfiguration → Option String
  | [] => none
  | cfg :: rest =>
    if knownProvider cfg then
      match oracle cfg with
      | some r => if r ≠ "" then some r else imagePromptLoop oracle rest
      | none => imagePromptLoop oracle rest
    else imagePromptLoop oracle rest

/-- `generate_image_prompt_with_fallback` (image_prompt_generation.py
lines 90-161): empty content short-circuits to None; otherwise the configs are
iterated in `order_by("-is_default", "created_at")` order and the first truthy
result is returned; exhaustion yields None. -/
def generate_image_prompt_with_fallback (oracle : AIConfiguration → Option String)
    (registry : List AIConfiguration) (post_content : String) : Option String :=
  if post_content = "" then none
  else imagePromptLoop oracle (orderAllConfigs registry)

/-- The Gemini leg of `generate_image_with_fallback`: a falsy path (None or
empty) or an exception falls through to the final None. -/
def imageTryGemini (geminiResult : Option String) : Option String :=
  match geminiResult with
  | some q => if q = "" then none else some q
  | none => none

/-- `generate_image_with_fallback` (image_generation.py lines 10-55): with a
truthy prompt it tries OpenAI first and then Gemini, in that fixed order; the
configuration registry is never consulted. Each leg's outcome is an
`Option String` (None standing for both a falsy return and a raised
exception, which the source treats alike). -/
def generate_image_with_fallback (openaiResult geminiResult : Option String)
    (image_prompt : String) : Option String :=
  if image_prompt = "" then none
  else
    match openaiResult with
    | some p => if p = "" then imageTryGemini geminiResult else some p
    | none => imageTryGemini geminiResult

/-- Modelled from the spec (§4.3, claim C5 wording), for comparison only: the
image-generation fallback as it would look if it iterated the same ordered
configuration list as text generation, returning the first successful file
path. -/
def specImageFallbackOverConfigs (oracle : AIConfiguration → Option String)
    (registry : List AIConfiguration) (image_prompt : String) : Option String :=
  if image_prompt = "" then none
  else imagePromptLoop oracle (orderAllConfigs registry)

/-! The AIConfiguration save override (models.py lines 412-416) and the
at-most-one-default invariant. The registry is the table contents in row
order; `save` first runs
`AIConfiguration.objects.filter(is_default=True).update(is_default=False)`
when the instance is default, then the ordinary save (update the row with the
same pk, or insert). -/

/-- Effect of `filter(is_default=True).update(is_default=False)` on one row. -/
def clearDefaultFlag (c : AIConfiguration) : AIConfiguration :=
  if c.is_default then { c with is_default := false } else c

/-- The plain `super().save()`: update the row with the same pk when it
exists, else insert at the end of the table. -/
def upsertById (registry : List AIConfiguration) (x : AIConfiguration) : List AIConfiguration :=
  if registry.any (fun c => c.id == x.id) then
    registry.map (fun c => if c.id == x.id then x else c)
  else registry ++ [x]

/-- `AIConfiguration.save` acting on the table. -/
def aiconfigurationSave (registry : List AIConfiguration)
    (x : AIConfiguration) : List AIConfiguration :=
  upsertById (if x.is_default then registry.map clearDefaultFlag else registry) x

/-- At most one row of the table is flagged default. -/
def atMostOneDefault (registry : List AIConfiguration) : Prop :=
  registry.countP (fun c => c.is_default) ≤ 1

/-! Batch publication (tasks.py lines 319-446, `publish_to_multiple_pages`).
Destinations are FacebookPage rows looked up by pk; the Graph API call is an
oracle per page. The loop appends one success or one failed entry per page id
and increments `processed` at the bottom of the loop body — a path that runs
`continue` (capability denied, API error) skips that increment. -/

structure FacebookPage where
  id : Nat
  page_id : String
  name : String
  access_token : String
  can_publish : Bool
deriving DecidableEq, Repr

inductive PublishApiOutcome where
  | ok (fb_post_id : String)
  | apiError (msg : String)
deriving DecidableEq, Repr

structure PublishSuccessEntry where
  page_id : Nat
  page_name : String
  facebook_post_id : String
deriving DecidableEq, Repr

structure PublishFailedEntry where
  page_id : Nat
  page_name : String
  error : String
deriving DecidableEq, Repr

structure PublishResults where
  success : List PublishSuccessEntry
  failed : List PublishFailedEntry
  total_pages : Nat
  processed : Nat
deriving DecidableEq, Repr

/-- One iteration of the destination loop. -/
def publishStep (db : Nat → Option FacebookPage) (api : FacebookPage → PublishApiOutcome)
    (acc : PublishResults) (pid : Nat) : PublishResults :=
  match db pid with
  | none =>
      { acc with
        failed := acc.failed ++ [⟨pid, "Desconhecida", "Página não encontrada"⟩],
        processed := acc.processed + 1 }
  | some page =>
    if !page.can_publish then
      { acc with
        failed := acc.failed ++ [⟨pid, page.name, "Página não tem permissão para publicar"⟩] }
    else
      match api page with
      | PublishApiOutcome.apiError m =>
          { acc with
            failed := acc.failed ++ [⟨pid, page.name, "Erro na API do Facebook: " ++ m⟩] }
      | PublishApiOutcome.ok fbid =>
          { acc with
            success := acc.success ++ [⟨pid, page.name, fbid⟩],
            processed := acc.processed + 1 }

/-- `publish_to_multiple_pages` restricted to its per-destination loop and
result dictionary. -/
def publish_to_multiple_pages (db : Nat → Option FacebookPage)
    (api : FacebookPage → PublishApiOutcome) (page_ids : List Nat) : PublishResults :=
  page_ids.foldl (publishStep db api)
    { success := [], failed := [], total_pages := page_ids.length, processed := 0 }

/-! The scheduled-item pipeline and the scheduler sweep (tasks.py). -/

/-- A ScheduledPost row, restricted to the fields the claims touch. -/
structure ScheduledPost where
  id : Nat
  status : String
  content : Option String := none
  template_prompt : Option String := none
  generated_content : Option String := none
  generated_image_prompt : Option String := none
  generated_image_file : Option String := none
  error_message : Option String := none
  scheduled_time : Nat := 0
deriving DecidableEq, Repr

/-- Base prompt resolution (tasks.py lines 87-90):
`post.template.prompt if post.template else (post.content or "Post")`. -/
def basePromptOf (post : ScheduledPost) : String :=
  match post.template_prompt with
  | some p => p
  | none => match post.content with
    | some c => if c = "" then "Post" else c
    | none => "Post"

/-- `generate_content_for_post` (tasks.py lines 67-122) acting on the row.
`textGen` is the outcome of `generate_text_with_fallback` (an error is the
raised RuntimeError message, caught by the task and recorded); `imagePromptGen`
is `generate_image_prompt_with_fallback`, which never raises and returns None
on total failure. -/
def generate_content_for_post (textGen : Except String String)
    (imagePromptGen : String → Option String) (post : ScheduledPost) : ScheduledPost :=
  match textGen with
  | Except.error e =>
      { post with status := "failed", error_message := some ("Erro na IA: " ++ e) }
  | Except.ok content =>
      { post with
        generated_content := some content,
        generated_image_prompt := imagePromptGen content,
        status := "ready" }

/-- The optional image stage of `publish_post_task` (tasks.py lines 140-153):
with a truthy image prompt it calls `generate_image_with_fallback`; any
failure (None, or an exception, both swallowed) leaves the row untouched and
the post ships text-only. Returns the updated row and the image path used. -/
def publish_post_image_stage (imageGen : String → Option String)
    (post : ScheduledPost) : ScheduledPost × Option String :=
  match post.generated_image_prompt with
  | some ip =>
    if ip = "" then (post, none)
    else
      match imageGen ip with
      | some path => ({ post with generated_image_file := some path }, some path)
      | none => (post, none)
  | none => (post, none)

/-- Result of one scheduler sweep. -/
structure SweepResult where
  updated : List ScheduledPost
  dispatched : Nat
  message : String
deriving DecidableEq, Repr

/-- One iteration of the sweep loop (tasks.py lines 47-62): set the row to
publishing, dispatch the publish task; a raised dispatch error turns the row
to failed with `str(e)` recorded and is not counted. -/
def sweepStep (dispatch : ScheduledPost → Except String Unit)
    (post : ScheduledPost) : ScheduledPost × Bool :=
  let p := { post with status := "publishing" }
  match dispatch p with
  | Except.ok _ => (p, true)
  | Except.error e => ({ p with status := "failed", error_message := some e }, false)

/-- The queryset `ScheduledPost.objects.filter(status="ready",
scheduled_time__lte=timezone.now())` in table order. -/
def duePosts (now : Nat) (posts : List ScheduledPost) : List ScheduledPost :=
  posts.filter (fun p => p.status == "ready" && decide (p.scheduled_time ≤ now))

/-- `process_scheduled_posts` (tasks.py lines 36-64): select the due rows
(status ready, scheduled_time ≤ now), process each in order, return the
updated rows, the dispatched count and the return string. -/
def process_scheduled_posts (now : Nat) (dispatch : ScheduledPost → Except String Unit)
    (posts : List ScheduledPost) : SweepResult :=
  let due := duePosts now posts
  let folded := due.foldl
    (fun (acc : List ScheduledPost × Nat) post =>
      let r := sweepStep dispatch post
      (acc.1 ++ [r.1], acc.2 + (if r.2 then 1 else 0)))
    ([], 0)
  ⟨folded.1, folded.2, "Processados " ++ toString folded.2 ++ " posts"⟩

/-! Provider adapter output normalization (services/openai_service.py
`generate_post_content`, lines 43-75, and the response-extraction part of
`_generate_with_gemini`, text_generation.py lines 78-104). Text is modelled
as `List Char` so that Python `str.strip` becomes an explicit function. -/

/-- Python `str.strip()`: drop whitespace from both ends. -/
def pstrip (s : List Char) : List Char :=
  ((s.dropWhile Char.isWhitespace).reverse.dropWhile Char.isWhitespace).reverse

/-- `generate_post_content`, given the chat-completion call outcome: a raised
exception is wrapped into an OpenAIServiceException; a response is normalized
as `(response.choices[0].message.content or "").strip()` — message content may
be None. -/
def openai_generate_post_content (resp : Except String (Option (List Char))) :
    Except String (List Char) :=
  match resp with
  | Except.error e => Except.error ("Erro na geração de conteúdo: " ++ e)
  | Except.ok content => Except.ok (pstrip (content.getD []))

/-- The truthy parts collected from the Gemini candidates, joined with a
newline (text_generation.py lines 91-100). -/
def geminiJoinParts (parts : List (List Char)) : List Char :=
  List.intercalate ['\n'] (parts.filter (fun p => !p.isEmpty))

/-- Response extraction of `_generate_with_gemini`: a truthy `result.text` is
stripped and returned; otherwise the truthy candidate parts are joined and
stripped; otherwise the empty-response error is raised (and re-wrapped by the
enclosing handler as a Gemini failure). -/
def gemini_extract_text (text : Option (List Char)) (parts : List (List Char)) :
    Except String (List Char) :=
  match text with
  | some t =>
    if !t.isEmpty then Except.ok (pstrip t)
    else if !(parts.filter (fun p => !p.isEmpty)).isEmpty then
      Except.ok (pstrip (geminiJoinParts parts))
    else Except.error "Gemini falhou: Resposta vazia do Gemini"
  | none =>
    if !(parts.filter (fun p => !p.isEmpty)).isEmpty then
      Except.ok (pstrip (geminiJoinParts parts))
    else Except.error "Gemini falhou: Resposta vazia do Gemini"

/-- Whether an orchestrator outcome is a success. -/
def TextGenOutcome.isOk : TextGenOutcome → Bool
  | TextGenOutcome.ok _ => true
  | TextGenOutcome.error _ => false

/-- Whether a provider call raised. -/
def CallOutcome.isErr : CallOutcome → Bool
  | CallOutcome.err _ => true
  | CallOutcome.ok _ => false

/-! Concrete scenario rows used by the witnesses: a default OpenAI config A,
a Gemini config B created later, a further OpenAI config C. -/

def wA : AIConfiguration :=
  { id := 1, name := "A", provider := "openai", model := "gpt-4o", is_default := true,
    created_at := 0 }

def wB : AIConfiguration :=
  { id := 2, name := "B", provider := "gemini", model := "gemini-2.0-flash", created_at := 1 }

def wC : AIConfiguration :=
  { id := 3, name := "C", provider := "openai", model := "gpt-4o-mini", created_at := 2 }

def wRegistry : List AIConfiguration := [wA, wB, wC]

/-- Oracle for the witnesses: config B succeeds, every other config's
provider raises a quota error. -/
def wOracle : AIConfiguration → CallOutcome :=
  fun cfg => if cfg.id == 2 then CallOutcome.ok "conteudo B" else CallOutcome.err "HTTP 429"

/-- Oracle that always succeeds. -/
def wOracleOk : AIConfiguration → CallOutcome := fun _ => CallOutcome.ok "texto gerado"

/-! Closed forms for the batch-publish loop, used to characterize
`publish_to_multiple_pages` destination by destination. -/

/-- The success entry a destination contributes, when it succeeds. -/
def destSuccessEntry (db : Nat → Option FacebookPage) (api : FacebookPage → PublishApiOutcome)
    (pid : Nat) : Option PublishSuccessEntry :=
  match db pid with
  | none => none
  | some page =>
    if page.can_publish then
      match api page with
      | PublishApiOutcome.ok fbid => some ⟨pid, page.name, fbid⟩
      | PublishApiOutcome.apiError _ => none
    else none

/-- The failed entry a destination contributes, when it fails. -/
def destFailedEntry (db : Nat → Option FacebookPage) (api : FacebookPage → PublishApiOutcome)
    (pid : Nat) : Option PublishFailedEntry :=
  match db pid with
  | none => some ⟨pid, "Desconhecida", "Página não encontrada"⟩
  | some page =>
    if page.can_publish then
      match api page with
      | PublishApiOutcome.apiError m => some ⟨pid, page.name, "Erro na API do Facebook: " ++ m⟩
      | PublishApiOutcome.ok _ => none
    else some ⟨pid, page.name, "Página não tem permissão para publicar"⟩

/-- Whether a destination reaches the `results["processed"] += 1` at the
bottom of the loop body (the capability-denied and API-error paths run
`continue` and never do). -/
def destCounted (db : Nat → Option FacebookPage) (api : FacebookPage → PublishApiOutcome)
    (pid : Nat) : Bool :=
  match db pid with
  | none => true
  | some page =>
    page.can_publish &&
      (match api page with | PublishApiOutcome.ok _ => true | PublishApiOutcome.apiError _ => false)

/-! Concrete batch-publish scenario: D1 lacks publish capability, D2
publishes, D3 hits an API error. -/

def cxPages : Nat → Option FacebookPage := fun n =>
  if n == 1 then some ⟨1, "fb1", "D1", "tok1", false⟩
  else if n == 2 then some ⟨2, "fb2", "D2", "tok2", true⟩
  else if n == 3 then some ⟨3, "fb3", "D3", "tok3", true⟩
  else none

def cxApi : FacebookPage → PublishApiOutcome := fun p =>
  if p.id == 2 then PublishApiOutcome.ok "fb_200" else PublishApiOutcome.apiError "timeout"

/-! Concrete image-generation scenario: the registry holds a single default
Gemini configuration and every per-config attempt fails. -/

def cxGeminiCfg : AIConfiguration :=
  { id := 7, name := "G", provider := "gemini", model := "gemini-2.5-flash",
    is_default := true, created_at := 0 }

def cxNoneOracle : AIConfiguration → Option String := fun _ => none

/-! Concrete scheduler-sweep scenario: two due posts, one whose dispatch
raises, one that dispatches cleanly. -/

def wPostFail : ScheduledPost := { id := 2, status := "ready", scheduled_time := 5 }

def wPostOk : ScheduledPost := { id := 1, status := "ready", scheduled_time := 5 }

def wDispatch : ScheduledPost → Except String Unit := fun p =>
  if p.id == 2 then Except.error "broker down" else Except.ok ()

/-- Image-prompt oracle for the witnesses: config B produces a prompt, every
other config fails. -/
def cxPOracle : AIConfiguration → Option String := fun cfg =>
  if cfg.id == 2 then some "prompt de imagem" else none

end FbAutomation

namespace FbAutomation

/-! Helper lemmas about the text-generation fallback. -/

theorem sortByCreated_short (l : List AIConfiguration) (h : l.length ≤ 1) :
    sortByCreated l = l := by
  match l with
  | [] => rfl
  | [a] => rfl
  | a :: b :: t => simp at h

theorem configsToTryOf_eq_spec (explicit : Option AIConfiguration)
    (registry : List AIConfiguration)
    (hdef : (registry.filter (fun c => c.is_default)).length ≤ 1) :
    configsToTryOf explicit registry = specOrderedConfigs explicit registry := by
  unfold configsToTryOf buildConfigsToTry specOrderedConfigs orderAllConfigs
  rw [sortByCreated_short _ hdef, List.foldl_append, List.foldl_append, List.foldl_append]
  cases explicit <;> rfl

theorem tryConfigs_first_success (oracle : AIConfiguration → CallOutcome) (total : Nat) :
    ∀ (pre : List AIConfiguration) (cfg : AIConfiguration) (suf : List AIConfiguration)
      (lastError : Option String) (invoked : List AIConfiguration) (t : String),
      (∀ c ∈ pre, knownProvider c = true → (oracle c).isErr = true) →
      knownProvider cfg = true → oracle cfg = CallOutcome.ok t →
      tryConfigs oracle total (pre ++ cfg :: suf) lastError invoked =
        ⟨TextGenOutcome.ok t, invoked ++ pre.filter knownProvider ++ [cfg]⟩ := by
  intro pre
  induction pre with
  | nil =>
    intro cfg suf lastError invoked t _ hk hok
    simp [tryConfigs, hk, hok]
  | cons a pre ih =>
    intro cfg suf lastError invoked t hpre hk hok
    by_cases ha : knownProvider a = true
    · have herr := hpre a (List.mem_cons_self a pre) ha
      cases hoa : oracle a with
      | ok tt => rw [hoa] at herr; simp [CallOutcome.isErr] at herr
      | err m =>
        simp only [List.cons_append, tryConfigs, ha, if_true, hoa, List.append_eq]
        rw [ih cfg suf (some m) (invoked ++ [a]) t
          (fun c hc hkc => hpre c (List.mem_cons_of_mem a hc) hkc) hk hok]
        simp [List.filter_cons, ha, List.append_assoc]
    · have ha' : knownProvider a = false := by
        cases hx : knownProvider a
        · rfl
        · exact absurd hx ha
      simp only [List.cons_append, tryConfigs, ha', Bool.false_eq_true, if_false, List.append_eq]
      rw [ih cfg suf lastError invoked t
        (fun c hc hkc => hpre c (List.mem_cons_of_mem a hc) hkc) hk hok]
      simp [List.filter_cons, ha']

theorem tryConfigs_all_fail (oracle : AIConfiguration → CallOutcome) (total : Nat) :
    ∀ (init : List AIConfiguration) (lastCfg : AIConfiguration) (elast : String)
      (e0 : Option String) (invoked : List AIConfiguration),
      (∀ c ∈ init ++ [lastCfg], knownProvider c = true) →
      (∀ c ∈ init ++ [lastCfg], (oracle c).isErr = true) →
      oracle lastCfg = CallOutcome.err elast →
      tryConfigs oracle total (init ++ [lastCfg]) e0 invoked =
        ⟨TextGenOutcome.error
            ("Todas as " ++ toString total ++ " configs falharam. Último erro: " ++ elast),
          invoked ++ (init ++ [lastCfg])⟩ := by
  intro init
  induction init with
  | nil =>
    intro lastCfg elast e0 invoked hall _ hlast
    have hk := hall lastCfg (by simp)
    simp [tryConfigs, hk, hlast]
  | cons a init ih =>
    intro lastCfg elast e0 invoked hall hfail hlast
    have ha := hall a (List.mem_cons_self a _)
    have herr := hfail a (List.mem_cons_self a _)
    cases hoa : oracle a with
    | ok tt => rw [hoa] at herr; simp [CallOutcome.isErr] at herr
    | err m =>
      simp only [List.cons_append, tryConfigs, ha, if_true, hoa, List.append_eq]
      rw [ih lastCfg elast (some m) (invoked ++ [a])
        (fun c hc => hall c (List.mem_cons_of_mem a hc))
        (fun c hc => hfail c (List.mem_cons_of_mem a hc)) hlast]
      simp [List.append_assoc]

theorem tryConfigs_success_exists (oracle : AIConfiguration → CallOutcome) (total : Nat) :
    ∀ (l : List AIConfiguration) (e0 : Option String) (invoked : List AIConfiguration),
      (∃ c ∈ l, knownProvider c = true ∧ (oracle c).isErr = false) →
      (tryConfigs oracle total l e0 invoked).outcome.isOk = true := by
  intro l
  induction l with
  | nil =>
    intro e0 invoked h
    obtain ⟨c, hc, _⟩ := h
    exact absurd hc (List.not_mem_nil c)
  | cons a rest ih =>
    intro e0 invoked h
    by_cases ha : knownProvider a = true
    · cases hoa : oracle a with
      | ok t => simp [tryConfigs, ha, hoa, TextGenOutcome.isOk]
      | err m =>
        simp only [tryConfigs, ha, if_true, hoa]
        apply ih
        obtain ⟨c, hc, hkc, hoc⟩ := h
        rcases List.mem_cons.mp hc with hca | hcr
        · subst hca; rw [hoa] at hoc; simp [CallOutcome.isErr] at hoc
        · exact ⟨c, hcr, hkc, hoc⟩
    · have ha' : knownProvider a = false := by
        cases hx : knownProvider a
        · rfl
        · exact absurd hx ha
      simp only [tryConfigs, ha', Bool.false_eq_true, if_false]
      apply ih
      obtain ⟨c, hc, hkc, hoc⟩ := h
      rcases List.mem_cons.mp hc with hca | hcr
      · subst hca; rw [hkc] at ha'; simp at ha'
      · exact ⟨c, hcr, hkc, hoc⟩

/-- C1: for every prompt, optional context and optional explicit config, the
orchestrator tries configurations in exactly the order: explicit config first,
then the system default, then the remaining configs by ascending creation
time, duplicates removed by pk identity; and it returns the result of the
first configuration whose provider call succeeds, invoking no configuration
placed after it. Formally: the attempt list built by the code equals the
spec-side ordering, and when that order splits as `pre ++ cfg :: suf` with
every attempted member of `pre` failing and `cfg` succeeding with text `t`,
the run returns `t` and the invoked configurations are exactly the attempted
part of `pre` followed by `cfg` — nothing from `suf`. -/
theorem claim_C1_order_and_short_circuit
    (oracle : AIConfiguration → CallOutcome) (explicit : Option AIConfiguration)
    (registry pre suf : List AIConfiguration) (cfg : AIConfiguration) (t : String)
    (hdef : (registry.filter (fun c => c.is_default)).length ≤ 1)
    (hsplit : specOrderedConfigs explicit registry = pre ++ cfg :: suf)
    (hpre : ∀ c ∈ pre, knownProvider c = true → (oracle c).isErr = true)
    (hknown : knownProvider cfg = true) (hok : oracle cfg = CallOutcome.ok t) :
    configsToTryOf explicit registry = specOrderedConfigs explicit registry ∧
    generate_text_with_fallback oracle explicit registry =
      ⟨TextGenOutcome.ok t, pre.filter knownProvider ++ [cfg]⟩ := by
  have heq := configsToTryOf_eq_spec explicit registry hdef
  refine ⟨heq, ?_⟩
  unfold generate_text_with_fallback
  rw [heq, hsplit]
  have hne : (pre ++ cfg :: suf).isEmpty = false := by cases pre <;> simp
  simp only [hne, Bool.false_eq_true, if_false]
  rw [tryConfigs_first_success oracle (pre ++ cfg :: suf).length pre cfg suf none [] t
    hpre hknown hok]
  simp

/-- C1 witness: with registry [A(default, fails), B(succeeds), C(unused)] the
orchestrator returns the result of B having invoked exactly A then B. -/
theorem claim_C1_witness :
    generate_text_with_fallback wOracle none wRegistry =
      ⟨TextGenOutcome.ok "conteudo B", [wA, wB]⟩ := by
  have h := claim_C1_order_and_short_circuit wOracle none wRegistry [wA] [wC] wB "conteudo B"
    (by decide) (by rfl)
    (by intro c hc _
        have : c = wA := by simpa using hc
        subst this
        decide)
    (by decide) (by decide)
  exact h.2

/-- C2: when every configuration in the ordered attempt list is attempted and
fails, the orchestrator fails with the aggregate error naming the number of
attempts and the last underlying error, having attempted every configuration;
and whenever at least one configuration's provider call succeeds, the run
ends in a success, never in an error. -/
theorem claim_C2_exhaustion_aggregate_and_no_raise_on_success
    (oracle : AIConfiguration → CallOutcome) (explicit : Option AIConfiguration)
    (registry : List AIConfiguration) :
    (∀ (init : List AIConfiguration) (lastCfg : AIConfiguration) (elast : String),
      configsToTryOf explicit registry = init ++ [lastCfg] →
      (∀ c ∈ configsToTryOf explicit registry, knownProvider c = true) →
      (∀ c ∈ configsToTryOf explicit registry, (oracle c).isErr = true) →
      oracle lastCfg = CallOutcome.err elast →
      generate_text_with_fallback oracle explicit registry =
        ⟨TextGenOutcome.error
            ("Todas as " ++ toString (configsToTryOf explicit registry).length ++
              " configs falharam. Último erro: " ++ elast),
          configsToTryOf explicit registry⟩) ∧
    (∀ cfg ∈ configsToTryOf explicit registry,
      knownProvider cfg = true → (oracle cfg).isErr = false →
      (generate_text_with_fallback oracle explicit registry).outcome.isOk = true) := by
  constructor
  · intro init lastCfg elast hsplit hall hfail hlast
    unfold generate_text_with_fallback
    rw [hsplit] at hall hfail ⊢
    have hne : (init ++ [lastCfg]).isEmpty = false := by cases init <;> simp
    simp only [hne, Bool.false_eq_true, if_false]
    exact tryConfigs_all_fail oracle (init ++ [lastCfg]).length init lastCfg elast none []
      hall hfail hlast
  · intro cfg hmem hk hokk
    unfold generate_text_with_fallback
    have hne : (configsToTryOf explicit registry).isEmpty = false := by
      cases hL : configsToTryOf explicit registry
      · rw [hL] at hmem; exact absurd hmem (List.not_mem_nil cfg)
      · simp
    simp only [hne, Bool.false_eq_true, if_false]
    exact tryConfigs_success_exists oracle _ _ none [] ⟨cfg, hmem, hk, hokk⟩

/-- C2 witness: registry [A(fails), C(fails)] produces the aggregate error
naming both attempts and the last error; the registry with B succeeding ends
in success. -/
theorem claim_C2_witness :
    generate_text_with_fallback wOracle none [wA, wC] =
      ⟨TextGenOutcome.error "Todas as 2 configs falharam. Último erro: HTTP 429", [wA, wC]⟩ ∧
    (generate_text_with_fallback wOracle none wRegistry).outcome.isOk = true := by
  constructor
  · have h := (claim_C2_exhaustion_aggregate_and_no_raise_on_success wOracle none [wA, wC]).1
      [wA] wC "HTTP 429" (by rfl)
      (by intro c hc
          have : c = wA ∨ c = wC := by
            have he : configsToTryOf none [wA, wC] = [wA, wC] := rfl
            rw [he] at hc
            simpa using hc
          rcases this with h1 | h1 <;> (subst h1; decide))
      (by intro c hc
          have : c = wA ∨ c = wC := by
            have he : configsToTryOf none [wA, wC] = [wA, wC] := rfl
            rw [he] at hc
            simpa using hc
          rcases this with h1 | h1 <;> (subst h1; decide))
      (by decide)
    exact h.trans (by rfl)
  · exact (claim_C2_exhaustion_aggregate_and_no_raise_on_success wOracle none wRegistry).2
      wB
      (by rw [show configsToTryOf none wRegistry = [wA, wB, wC] from rfl]
          exact List.mem_cons_of_mem _ (List.mem_cons_self _ _))
      (by decide) (by decide)

/-- C8: with an empty registry and no explicit config the orchestrator does
not fail with a configuration error: it synthesizes the hard-coded default
configuration (flagged is_default) and proceeds to attempt generation with
exactly that configuration, returning its provider outcome (success, or the
one-attempt aggregate error). -/
theorem claim_C8_empty_registry_synthesizes_default
    (oracle : AIConfiguration → CallOutcome) :
    defaultAIConfiguration.is_default = true ∧
    defaultAIConfiguration.name = "Configuração Padrão" ∧
    defaultAIConfiguration.model = "gpt-3.5-turbo" ∧
    defaultAIConfiguration.max_tokens = 500 ∧
    defaultAIConfiguration.temperature = 7/10 ∧
    (generate_text_with_fallback oracle none []).invoked = [defaultAIConfiguration] ∧
    (∀ t, oracle defaultAIConfiguration = CallOutcome.ok t →
      generate_text_with_fallback oracle none [] =
        ⟨TextGenOutcome.ok t, [defaultAIConfiguration]⟩) ∧
    (∀ m, oracle defaultAIConfiguration = CallOutcome.err m →
      generate_text_with_fallback oracle none [] =
        ⟨TextGenOutcome.error ("Todas as 1 configs falharam. Último erro: " ++ m),
          [defaultAIConfiguration]⟩) := by
  have hk : knownProvider defaultAIConfiguration = true := by decide
  refine ⟨rfl, rfl, rfl, rfl, rfl, ?_, ?_, ?_⟩
  · cases ho : oracle defaultAIConfiguration <;>
      simp [generate_text_with_fallback, configsToTryOf, buildConfigsToTry, orderAllConfigs,
        sortByCreated, get_default_ai_config, tryConfigs, hk, ho]
  · intro t ht
    simp [generate_text_with_fallback, configsToTryOf, buildConfigsToTry, orderAllConfigs,
      sortByCreated, get_default_ai_config, tryConfigs, hk, ht]
  · intro m hm
    simp [generate_text_with_fallback, configsToTryOf, buildConfigsToTry, orderAllConfigs,
      sortByCreated, get_default_ai_config, tryConfigs, hk, hm]
    rfl

/-- C8 witness: with the always-succeeding oracle and an empty registry the
run succeeds through the synthesized default configuration. -/
theorem claim_C8_witness :
    generate_text_with_fallback wOracleOk none [] =
      ⟨TextGenOutcome.ok "texto gerado", [defaultAIConfiguration]⟩ :=
  (claim_C8_empty_registry_synthesizes_default wOracleOk).2.2.2.2.2.2.1
    "texto gerado" rfl

/-! Lemmas for the AIConfiguration save override. -/

theorem clearDefaultFlag_is_default (c : AIConfiguration) :
    (clearDefaultFlag c).is_default = false := by
  cases hx : c.is_default <;> simp [clearDefaultFlag, hx]

theorem clearDefaultFlag_id (c : AIConfiguration) : (clearDefaultFlag c).id = c.id := by
  cases hx : c.is_default <;> simp [clearDefaultFlag, hx]

theorem countP_id_le_one (k : Nat) :
    ∀ l : List AIConfiguration, (l.map (fun c => c.id)).Nodup →
      l.countP (fun c => c.id == k) ≤ 1 := by
  intro l
  induction l with
  | nil => intro _; simp
  | cons a t ih =>
    intro h
    rw [List.map_cons, List.nodup_cons] at h
    obtain ⟨ha, ht⟩ := h
    rw [List.countP_cons]
    by_cases hk : a.id = k
    · have hz : t.countP (fun c => c.id == k) = 0 := by
        apply List.countP_eq_zero.mpr
        intro c hc hck
        apply ha
        have hck2 : c.id = k := by simpa using hck
        rw [hk, ← hck2]
        exact List.mem_map_of_mem _ hc
      simp [hz, hk]
    · have hk' : (a.id == k) = false := by simpa using hk
      simp only [hk', if_false, Nat.add_zero]
      exact ih ht

theorem save_default_clears (registry : List AIConfiguration) (x : AIConfiguration)
    (hx : x.is_default = true) :
    ∀ c ∈ aiconfigurationSave registry x, c.is_default = true → c = x := by
  intro c hc hcd
  unfold aiconfigurationSave upsertById at hc
  rw [if_pos hx] at hc
  have hclear : ∀ c ∈ registry.map clearDefaultFlag, c.is_default = false := by
    intro y hy
    obtain ⟨z, _, hzy⟩ := List.mem_map.mp hy
    rw [← hzy]
    exact clearDefaultFlag_is_default z
  by_cases hany : (registry.map clearDefaultFlag).any (fun c => c.id == x.id) = true
  · rw [if_pos hany] at hc
    obtain ⟨y, hy, hyc⟩ := List.mem_map.mp hc
    by_cases hid : (y.id == x.id) = true
    · rw [if_pos hid] at hyc; exact hyc.symm
    · rw [if_neg hid] at hyc
      rw [← hyc] at hcd
      rw [hclear y hy] at hcd
      exact absurd hcd (by simp)
  · rw [if_neg hany] at hc
    rcases List.mem_append.mp hc with hcr | hcx
    · rw [hclear c hcr] at hcd
      exact absurd hcd (by simp)
    · simpa using hcx

theorem save_default_countP (registry : List AIConfiguration) (x : AIConfiguration)
    (hx : x.is_default = true) (hnodup : (registry.map (fun c => c.id)).Nodup) :
    (aiconfigurationSave registry x).countP (fun c => c.is_default) = 1 := by
  unfold aiconfigurationSave upsertById
  rw [if_pos hx]
  have hclear : ∀ c ∈ registry.map clearDefaultFlag, c.is_default = false := by
    intro y hy
    obtain ⟨z, _, hzy⟩ := List.mem_map.mp hy
    rw [← hzy]
    exact clearDefaultFlag_is_default z
  by_cases hany : (registry.map clearDefaultFlag).any (fun c => c.id == x.id) = true
  · rw [if_pos hany, List.countP_map]
    have hpt : ∀ c ∈ registry.map clearDefaultFlag,
        ((fun c => c.is_default) ∘ fun c => if c.id == x.id then x else c) c =
          (c.id == x.id) := by
      intro c hc
      by_cases hid : (c.id == x.id) = true
      · have hid2 : c.id = x.id := by simpa using hid
        simp [hid, hid2, hx]
      · have hid' : (c.id == x.id) = false := by
          cases h : (c.id == x.id)
          · rfl
          · exact absurd h hid
        have hid2 : ¬ c.id = x.id := by simpa using hid'
        simp [hid', hid2, hclear c hc]
    rw [List.countP_congr (fun a ha => by rw [hpt a ha]), List.countP_map]
    have hpt2 : ∀ c ∈ registry,
        ((fun c => c.id == x.id) ∘ clearDefaultFlag) c = (c.id == x.id) := by
      intro c _
      simp [Function.comp, clearDefaultFlag_id]
    rw [List.countP_congr (fun a ha => by rw [hpt2 a ha])]
    have hle := countP_id_le_one x.id registry hnodup
    have hpos : 0 < registry.countP (fun c => c.id == x.id) := by
      obtain ⟨y, hy, hyid⟩ := List.any_eq_true.mp hany
      obtain ⟨z, hz, hzy⟩ := List.mem_map.mp hy
      apply List.countP_pos.mpr
      refine ⟨z, hz, ?_⟩
      rw [← hzy, clearDefaultFlag_id] at hyid
      exact hyid
    omega
  · rw [if_neg hany, List.countP_append]
    have hz : (registry.map clearDefaultFlag).countP (fun c => c.is_default) = 0 :=
      List.countP_eq_zero.mpr (fun c hc => by simp [hclear c hc])
    simp [hz, hx]

theorem save_preserves_at_most_one (registry : List AIConfiguration)
    (x : AIConfiguration) (hnodup : (registry.map (fun c => c.id)).Nodup)
    (hinv : atMostOneDefault registry) :
    atMostOneDefault (aiconfigurationSave registry x) := by
  by_cases hx : x.is_default = true
  · unfold atMostOneDefault
    rw [save_default_countP registry x hx hnodup]
  · have hx' : x.is_default = false := by
      cases h : x.is_default
      · rfl
      · exact absurd h hx
    unfold aiconfigurationSave upsertById
    rw [if_neg hx]
    unfold atMostOneDefault at hinv ⊢
    by_cases hany : registry.any (fun c => c.id == x.id) = true
    · rw [if_pos hany, List.countP_map]
      refine le_trans (List.countP_mono_left ?_) hinv
      intro c _ hcd
      simp only [Function.comp] at hcd
      by_cases hid : (c.id == x.id) = true
      · rw [if_pos hid] at hcd
        rw [hcd] at hx'
        simp at hx'
      · rw [if_neg hid] at hcd
        exact hcd
    · rw [if_neg hany, List.countP_append]
      simp [hx']
      exact hinv

theorem save_idempotent_on_default (registry : List AIConfiguration)
    (x : AIConfiguration) (hmem : x ∈ registry) (hx : x.is_default = true)
    (hid : ∀ c ∈ registry, c.id = x.id → c = x)
    (hothers : ∀ c ∈ registry, c.id ≠ x.id → c.is_default = false) :
    aiconfigurationSave registry x = registry := by
  unfold aiconfigurationSave upsertById
  rw [if_pos hx]
  have hany : (registry.map clearDefaultFlag).any (fun c => c.id == x.id) = true := by
    apply List.any_eq_true.mpr
    exact ⟨clearDefaultFlag x, List.mem_map_of_mem _ hmem,
      by rw [clearDefaultFlag_id]; simp⟩
  rw [if_pos hany, List.map_map]
  have hpt : ∀ c ∈ registry,
      ((fun c => if c.id == x.id then x else c) ∘ clearDefaultFlag) c = c := by
    intro c hc
    simp only [Function.comp]
    by_cases hcid : c.id = x.id
    · have hcx : c = x := hid c hc hcid
      subst hcx
      simp [clearDefaultFlag, hx]
    · have hcd : c.is_default = false := hothers c hc hcid
      have hcid' : (c.id == x.id) = false := by simpa using hcid
      simp [clearDefaultFlag, hcd, hcid']
  calc registry.map ((fun c => if c.id == x.id then x else c) ∘ clearDefaultFlag)
      = registry.map id := List.map_congr_left hpt
    _ = registry := List.map_id registry

/-- C4: saving a configuration flagged default clears the default flag on all
other rows in the same write, leaving exactly one default row (the saved one);
every save preserves the at-most-one-default invariant; and saving the current
default again as default leaves the table unchanged. -/
theorem claim_C4_at_most_one_default :
    (∀ (registry : List AIConfiguration) (x : AIConfiguration),
      x.is_default = true → (registry.map (fun c => c.id)).Nodup →
      (aiconfigurationSave registry x).countP (fun c => c.is_default) = 1 ∧
        ∀ c ∈ aiconfigurationSave registry x, c.is_default = true → c = x) ∧
    (∀ (registry : List AIConfiguration) (x : AIConfiguration),
      (registry.map (fun c => c.id)).Nodup →
      atMostOneDefault registry → atMostOneDefault (aiconfigurationSave registry x)) ∧
    (∀ (registry : List AIConfiguration) (x : AIConfiguration),
      x ∈ registry → x.is_default = true →
      (∀ c ∈ registry, c.id = x.id → c = x) →
      (∀ c ∈ registry, c.id ≠ x.id → c.is_default = false) →
      aiconfigurationSave registry x = registry) :=
  ⟨fun registry x hx hn =>
      ⟨save_default_countP registry x hx hn, save_default_clears registry x hx⟩,
    fun registry x hn hinv => save_preserves_at_most_one registry x hn hinv,
    fun registry x hm hx hid hot => save_idempotent_on_default registry x hm hx hid hot⟩

/-- C4 witness: saving B as default over [A(default), B] leaves exactly one
default row; saving the current default A again leaves the table unchanged. -/
theorem claim_C4_witness :
    (aiconfigurationSave [wA, wB] { wB with is_default := true }).countP
        (fun c => c.is_default) = 1 ∧
    aiconfigurationSave [wA, wB] wA = [wA, wB] := by
  constructor
  · exact (claim_C4_at_most_one_default.1 [wA, wB] { wB with is_default := true }
      rfl (by decide)).1
  · refine claim_C4_at_most_one_default.2.2 [wA, wB] wA
      (List.mem_cons_self _ _) rfl ?_ ?_
    · intro c hc hcid
      rcases List.mem_cons.mp hc with h1 | h1
      · exact h1
      · have : c = wB := by simpa using h1
        subst this
        exact absurd hcid (by decide)
    · intro c hc hcid
      rcases List.mem_cons.mp hc with h1 | h1
      · subst h1; exact absurd rfl hcid
      · have : c = wB := by simpa using h1
        subst this
        rfl

/-! Lemmas for the batch-publish loop. -/

theorem publish_foldl_closed (db : Nat → Option FacebookPage)
    (api : FacebookPage → PublishApiOutcome) :
    ∀ (ids : List Nat) (acc : PublishResults),
      List.foldl (publishStep db api) acc ids =
        { success := acc.success ++ ids.filterMap (destSuccessEntry db api),
          failed := acc.failed ++ ids.filterMap (destFailedEntry db api),
          total_pages := acc.total_pages,
          processed := acc.processed + ids.countP (destCounted db api) } := by
  intro ids
  induction ids with
  | nil => intro acc; simp
  | cons pid rest ih =>
    intro acc
    rw [List.foldl_cons, ih]
    cases hdb : db pid with
    | none =>
      simp [publishStep, destSuccessEntry, destFailedEntry, destCounted, hdb,
        List.filterMap_cons, List.countP_cons, List.append_assoc]
      omega
    | some page =>
      by_cases hcp : page.can_publish = true
      · cases hapi : api page with
        | ok fbid =>
          simp [publishStep, destSuccessEntry, destFailedEntry, destCounted, hdb, hcp, hapi,
            List.filterMap_cons, List.countP_cons, List.append_assoc]
          omega
        | apiError m =>
          simp [publishStep, destSuccessEntry, destFailedEntry, destCounted, hdb, hcp, hapi,
            List.filterMap_cons, List.countP_cons, List.append_assoc]
      · have hcp' : page.can_publish = false := by
          cases h : page.can_publish
          · rfl
          · exact absurd h hcp
        simp [publishStep, destSuccessEntry, destFailedEntry, destCounted, hdb, hcp',
          List.filterMap_cons, List.countP_cons, List.append_assoc]

theorem dest_partition_perm (db : Nat → Option FacebookPage)
    (api : FacebookPage → PublishApiOutcome) :
    ∀ ids : List Nat,
      List.Perm
        ((ids.filterMap (destSuccessEntry db api)).map (fun e => e.page_id) ++
          (ids.filterMap (destFailedEntry db api)).map (fun e => e.page_id)) ids := by
  intro ids
  induction ids with
  | nil => simp
  | cons pid rest ih =>
    cases hdb : db pid with
    | none =>
      simp only [List.filterMap_cons, destSuccessEntry, destFailedEntry, hdb, List.map_cons]
      exact List.perm_middle.trans (ih.cons pid)
    | some page =>
      by_cases hcp : page.can_publish = true
      · cases hapi : api page with
        | ok fbid =>
          simp only [List.filterMap_cons, destSuccessEntry, destFailedEntry, hdb, hcp, hapi,
            if_true, List.map_cons, List.cons_append]
          exact ih.cons pid
        | apiError m =>
          simp only [List.filterMap_cons, destSuccessEntry, destFailedEntry, hdb, hcp, hapi,
            if_true, List.map_cons]
          exact List.perm_middle.trans (ih.cons pid)
      · have hcp' : page.can_publish = false := by
          cases h : page.can_publish
          · rfl
          · exact absurd h hcp
        simp only [List.filterMap_cons, destSuccessEntry, destFailedEntry, hdb, hcp',
          Bool.false_eq_true, if_false, List.map_cons]
        exact List.perm_middle.trans (ih.cons pid)

/-- C3 counterexample: for destinations [D1(no permission), D2(succeeds),
D3(API error)] the returned processed counter is 1, not the 3 destinations
supplied — the capability-denied and API-error paths reach `continue` before
the `processed` increment. -/
theorem claim_C3_counterexample :
    (publish_to_multiple_pages cxPages cxApi [1, 2, 3]).processed = 1 ∧
    (publish_to_multiple_pages cxPages cxApi [1, 2, 3]).total_pages = 3 ∧
    (publish_to_multiple_pages cxPages cxApi [1, 2, 3]).processed ≠
      (publish_to_multiple_pages cxPages cxApi [1, 2, 3]).total_pages :=
  ⟨rfl, rfl, by decide⟩

/-- C3 (amended): the batch publish partitions the supplied destinations —
each contributes exactly its success entry or its failed entry with the
corresponding reason string, no exception propagating past one destination;
`total_pages` equals the number of destinations supplied, while `processed`
counts only the destinations whose loop iteration reaches the bottom of the
body (successes and page-not-found failures), the `continue` paths being
skipped. -/
theorem claim_C3_per_destination_isolation (db : Nat → Option FacebookPage)
    (api : FacebookPage → PublishApiOutcome) (ids : List Nat) :
    publish_to_multiple_pages db api ids =
      { success := ids.filterMap (destSuccessEntry db api),
        failed := ids.filterMap (destFailedEntry db api),
        total_pages := ids.length,
        processed := ids.countP (destCounted db api) } := by
  unfold publish_to_multiple_pages
  rw [publish_foldl_closed]
  simp

/-- C10: the outcome lists partition the input — every supplied destination id
contributes exactly one entry to success or failed, so the two lengths sum to
the number supplied, which is also the reported total_pages; the multiset of
page ids across both lists is exactly the input. -/
theorem claim_C10_partition (db : Nat → Option FacebookPage)
    (api : FacebookPage → PublishApiOutcome) (ids : List Nat) :
    (publish_to_multiple_pages db api ids).success.length +
        (publish_to_multiple_pages db api ids).failed.length = ids.length ∧
    (publish_to_multiple_pages db api ids).total_pages = ids.length ∧
    List.Perm
      ((publish_to_multiple_pages db api ids).success.map (fun e => e.page_id) ++
        (publish_to_multiple_pages db api ids).failed.map (fun e => e.page_id)) ids := by
  have hc : publish_to_multiple_pages db api ids =
      { success := ids.filterMap (destSuccessEntry db api),
        failed := ids.filterMap (destFailedEntry db api),
        total_pages := ids.length,
        processed := ids.countP (destCounted db api) } := by
    unfold publish_to_multiple_pages
    rw [publish_foldl_closed]
    simp
  refine ⟨?_, ?_, ?_⟩
  · rw [hc]
    have hlen := (dest_partition_perm db api ids).length_eq
    simpa using hlen
  · rw [hc]
  · rw [hc]
    exact dest_partition_perm db api ids

/-! Lemmas and claims for image-prompt and image generation. -/

theorem imagePromptLoop_first_success (oracle : AIConfiguration → Option String) :
    ∀ (pre : List AIConfiguration) (cfg : AIConfiguration) (suf : List AIConfiguration)
      (r : String),
      (∀ c ∈ pre, knownProvider c = true → oracle c = none ∨ oracle c = some "") →
      knownProvider cfg = true → oracle cfg = some r → r ≠ "" →
      imagePromptLoop oracle (pre ++ cfg :: suf) = some r := by
  intro pre
  induction pre with
  | nil =>
    intro cfg suf r _ hk hok hr
    simp [imagePromptLoop, hk, hok, hr]
  | cons a pre ih =>
    intro cfg suf r hpre hk hok hr
    by_cases ha : knownProvider a = true
    · rcases hpre a (List.mem_cons_self a pre) ha with hn | he
      · simp only [List.cons_append, imagePromptLoop, ha, if_true, hn]
        exact ih cfg suf r (fun c hc h => hpre c (List.mem_cons_of_mem a hc) h) hk hok hr
      · simp only [List.cons_append, imagePromptLoop, ha, if_true, he, ne_eq,
          not_true_eq_false, if_false]
        exact ih cfg suf r (fun c hc h => hpre c (List.mem_cons_of_mem a hc) h) hk hok hr
    · have ha' : knownProvider a = false := by
        cases hx : knownProvider a
        · rfl
        · exact absurd hx ha
      simp only [List.cons_append, imagePromptLoop, ha', Bool.false_eq_true, if_false]
      exact ih cfg suf r (fun c hc h => hpre c (List.mem_cons_of_mem a hc) h) hk hok hr

/-- C5 counterexample: `generate_image_with_fallback` does not iterate the
configuration registry. With a registry whose only (default) configuration is
a Gemini one and every per-config attempt failing, the claimed
config-iterating algorithm yields None, yet the function still returns the
OpenAI result — it tries OpenAI then Gemini in a fixed order, ignoring the
registry. -/
theorem claim_C5_counterexample :
    generate_image_with_fallback (some "generated_images/img.png") none "um gato" =
      some "generated_images/img.png" ∧
    specImageFallbackOverConfigs cxNoneOracle [cxGeminiCfg] "um gato" = none ∧
    generate_image_with_fallback (some "generated_images/img.png") none "um gato" ≠
      specImageFallbackOverConfigs cxNoneOracle [cxGeminiCfg] "um gato" :=
  ⟨rfl, rfl, by decide⟩

/-- C5 (amended): `generate_image_prompt_with_fallback` follows the text
orchestrator structure over the same ordered configuration list (default
first, then remaining by ascending creation time; it takes no explicit-config
parameter), returning the first non-empty prompt produced; while
`generate_image_with_fallback` does not consult the configuration list — it
tries OpenAI then Gemini in a fixed order, returning the first truthy file
path, and None when both legs fail. -/
theorem claim_C5_image_fallback_structure :
    (∀ (oracle : AIConfiguration → Option String) (registry : List AIConfiguration)
      (content : String) (pre suf : List AIConfiguration) (cfg : AIConfiguration)
      (r : String),
      content ≠ "" →
      orderAllConfigs registry = pre ++ cfg :: suf →
      (∀ c ∈ pre, knownProvider c = true → oracle c = none ∨ oracle c = some "") →
      knownProvider cfg = true → oracle cfg = some r → r ≠ "" →
      generate_image_prompt_with_fallback oracle registry content = some r) ∧
    (∀ (g : Option String) (p prompt : String), prompt ≠ "" → p ≠ "" →
      generate_image_with_fallback (some p) g prompt = some p) ∧
    (∀ (q prompt : String), prompt ≠ "" → q ≠ "" →
      generate_image_with_fallback none (some q) prompt = some q) ∧
    (∀ prompt : String, generate_image_with_fallback none none prompt = none) := by
  refine ⟨?_, ?_, ?_, ?_⟩
  · intro oracle registry content pre suf cfg r hcontent horder hpre hk hok hr
    unfold generate_image_prompt_with_fallback
    rw [if_neg hcontent, horder]
    exact imagePromptLoop_first_success oracle pre cfg suf r hpre hk hok hr
  · intro g p prompt hprompt hp
    unfold generate_image_with_fallback
    rw [if_neg hprompt]
    simp [hp]
  · intro q prompt hprompt hq
    unfold generate_image_with_fallback
    rw [if_neg hprompt]
    simp [imageTryGemini, hq]
  · intro prompt
    unfold generate_image_with_fallback
    by_cases h : prompt = "" <;> simp [h, imageTryGemini]

/-- C5 witness: the image-prompt fallback returns config B's prompt after A
fails; the image fallback prefers the OpenAI path over the Gemini one. -/
theorem claim_C5_witness :
    generate_image_prompt_with_fallback cxPOracle wRegistry "conteudo" =
      some "prompt de imagem" ∧
    generate_image_with_fallback (some "a.png") (some "b.png") "p" = some "a.png" := by
  constructor
  · exact claim_C5_image_fallback_structure.1 cxPOracle wRegistry "conteudo" [wA] [wC] wB
      "prompt de imagem" (by decide) rfl
      (by intro c hc _
          have : c = wA := by simpa using hc
          subst this
          exact Or.inl rfl)
      (by decide) rfl (by decide)
  · exact claim_C5_image_fallback_structure.2.1 (some "b.png") "a.png" "p"
      (by decide) (by decide)

/-- C6: in the content pipeline for one ScheduledPost, a text-generation
failure is fatal — the row ends failed with the orchestrator error recorded in
error_message and the previous generated content untouched; an image-prompt
failure degrades gracefully — the generated text is stored, status becomes
ready and generated_image_file stays as it was (empty for fresh rows); and a
total image-generation failure at publish time leaves the row entirely
unchanged, shipping text-only. -/
theorem claim_C6_text_fatal_image_graceful (post : ScheduledPost) (e t : String)
    (ipg : String → Option String) :
    ((generate_content_for_post (Except.error e) ipg post).status = "failed" ∧
      (generate_content_for_post (Except.error e) ipg post).error_message =
        some ("Erro na IA: " ++ e) ∧
      (generate_content_for_post (Except.error e) ipg post).generated_content =
        post.generated_content) ∧
    ((generate_content_for_post (Except.ok t) (fun _ => none) post).status = "ready" ∧
      (generate_content_for_post (Except.ok t) (fun _ => none) post).generated_content =
        some t ∧
      (generate_content_for_post (Except.ok t) (fun _ => none) post).generated_image_prompt =
        none ∧
      (generate_content_for_post (Except.ok t) (fun _ => none) post).generated_image_file =
        post.generated_image_file) ∧
    ((publish_post_image_stage (fun _ => none) post).1 = post ∧
      (publish_post_image_stage (fun _ => none) post).2 = none) := by
  refine ⟨⟨rfl, rfl, rfl⟩, ⟨rfl, rfl, rfl, rfl⟩, ?_⟩
  unfold publish_post_image_stage
  cases post.generated_image_prompt with
  | none => exact ⟨rfl, rfl⟩
  | some ip => by_cases hip : ip = "" <;> simp [hip]

/-! Lemmas and claims for the scheduler sweep. -/

theorem sweep_foldl (dispatch : ScheduledPost → Except String Unit) :
    ∀ (due : List ScheduledPost) (acc : List ScheduledPost × Nat),
      due.foldl
        (fun (acc : List ScheduledPost × Nat) post =>
          let r := sweepStep dispatch post
          (acc.1 ++ [r.1], acc.2 + (if r.2 then 1 else 0)))
        acc =
      (acc.1 ++ due.map (fun p => (sweepStep dispatch p).1),
        acc.2 + due.countP (fun p => (sweepStep dispatch p).2)) := by
  intro due
  induction due with
  | nil => intro acc; simp
  | cons p rest ih =>
    intro acc
    rw [List.foldl_cons, ih]
    simp only [List.map_cons, List.countP_cons, List.append_assoc, List.cons_append,
      List.nil_append, Prod.mk.injEq]
    refine ⟨trivial, ?_⟩
    by_cases hb : (sweepStep dispatch p).2 = true
    · simp [hb]
      omega
    · have hb' : (sweepStep dispatch p).2 = false := by
        cases hx : (sweepStep dispatch p).2
        · rfl
        · exact absurd hx hb
      simp [hb']

theorem process_scheduled_posts_closed (now : Nat)
    (dispatch : ScheduledPost → Except String Unit) (posts : List ScheduledPost) :
    process_scheduled_posts now dispatch posts =
      ⟨(duePosts now posts).map (fun p => (sweepStep dispatch p).1),
        (duePosts now posts).countP (fun p => (sweepStep dispatch p).2),
        "Processados " ++
          toString ((duePosts now posts).countP (fun p => (sweepStep dispatch p).2)) ++
          " posts"⟩ := by
  simp only [process_scheduled_posts]
  rw [sweep_foldl]
  simp

/-- C7: the sweep selects exactly the rows with status ready and
scheduled_time ≤ now and processes every one of them in order, never aborting:
the updated rows are the due rows each passed through one dispatch step, the
returned count counts exactly the successfully dispatched ones and is embedded
in the return message; a row whose dispatch raises ends failed with the raised
message recorded (non-empty whenever the message is), and a row whose dispatch
succeeds ends in publishing. -/
theorem claim_C7_sweep_isolation (now : Nat)
    (dispatch : ScheduledPost → Except String Unit) (posts : List ScheduledPost) :
    (process_scheduled_posts now dispatch posts).updated =
      (duePosts now posts).map (fun p => (sweepStep dispatch p).1) ∧
    (process_scheduled_posts now dispatch posts).updated.length =
      (duePosts now posts).length ∧
    (process_scheduled_posts now dispatch posts).dispatched =
      (duePosts now posts).countP (fun p => (sweepStep dispatch p).2) ∧
    (process_scheduled_posts now dispatch posts).message =
      "Processados " ++ toString (process_scheduled_posts now dispatch posts).dispatched ++
        " posts" ∧
    (∀ (p : ScheduledPost) (e : String),
      dispatch { p with status := "publishing" } = Except.error e → e ≠ "" →
      (sweepStep dispatch p).1.status = "failed" ∧
        (sweepStep dispatch p).1.error_message = some e ∧
        (sweepStep dispatch p).1.error_message ≠ some "" ∧
        (sweepStep dispatch p).1.error_message ≠ none ∧
        (sweepStep dispatch p).2 = false) ∧
    (∀ p : ScheduledPost, dispatch { p with status := "publishing" } = Except.ok () →
      (sweepStep dispatch p).1.status = "publishing" ∧ (sweepStep dispatch p).2 = true) := by
  rw [process_scheduled_posts_closed]
  refine ⟨rfl, by simp, rfl, rfl, ?_, ?_⟩
  · intro p e hd he
    have hs : sweepStep dispatch p =
        ({ p with status := "failed", error_message := some e }, false) := by
      simp [sweepStep, hd]
    rw [hs]
    exact ⟨rfl, rfl, by simp [he], by simp, rfl⟩
  · intro p hd
    have hs : sweepStep dispatch p = ({ p with status := "publishing" }, true) := by
      simp [sweepStep, hd]
    rw [hs]
    exact ⟨rfl, rfl⟩

/-- C7 witness: two due rows, the dispatch of one raising "broker down": the
sweep reports one dispatched post and the failing row ends failed with the
message recorded. -/
theorem claim_C7_witness :
    (process_scheduled_posts 10 wDispatch [wPostFail, wPostOk]).dispatched = 1 ∧
    (process_scheduled_posts 10 wDispatch [wPostFail, wPostOk]).message =
      "Processados 1 posts" ∧
    (sweepStep wDispatch wPostFail).1.status = "failed" ∧
    (sweepStep wDispatch wPostFail).1.error_message = some "broker down" := by
  have h := claim_C7_sweep_isolation 10 wDispatch [wPostFail, wPostOk]
  refine ⟨?_, ?_, ?_, ?_⟩
  · rw [h.2.2.1]
    rfl
  · rw [h.2.2.2.1, h.2.2.1]
    rfl
  · exact (h.2.2.2.2.1 wPostFail "broker down" rfl (by decide)).1
  · exact (h.2.2.2.2.1 wPostFail "broker down" rfl (by decide)).2.1

/-! Lemmas and claims for adapter output normalization. -/

theorem mem_dropWhile_of_not (p : Char → Bool) :
    ∀ (l : List Char) (c : Char), c ∈ l → p c = false → c ∈ l.dropWhile p := by
  intro l
  induction l with
  | nil => intro c hc _; exact absurd hc (List.not_mem_nil c)
  | cons a t ih =>
    intro c hc hpc
    by_cases hpa : p a = true
    · rw [List.dropWhile_cons, if_pos hpa]
      rcases List.mem_cons.mp hc with h1 | h1
      · subst h1; rw [hpa] at hpc; exact absurd hpc (by simp)
      · exact ih c h1 hpc
    · rw [List.dropWhile_cons, if_neg hpa]
      exact hc

theorem head?_dropWhile_false (p : Char → Bool) :
    ∀ (l : List Char) (c : Char), (l.dropWhile p).head? = some c → p c = false := by
  intro l
  induction l with
  | nil => intro c hc; simp [List.dropWhile] at hc
  | cons a t ih =>
    intro c hc
    by_cases hpa : p a = true
    · rw [List.dropWhile_cons, if_pos hpa] at hc
      exact ih c hc
    · rw [List.dropWhile_cons, if_neg hpa] at hc
      have hac : a = c := by simpa using hc
      subst hac
      cases hx : p a
      · rfl
      · exact absurd hx hpa

theorem getLast?_dropWhile (p : Char → Bool) :
    ∀ l : List Char, l.dropWhile p ≠ [] → (l.dropWhile p).getLast? = l.getLast? := by
  intro l
  induction l with
  | nil => intro h; simp [List.dropWhile] at h
  | cons a t ih =>
    intro h
    by_cases hpa : p a = true
    · rw [List.dropWhile_cons, if_pos hpa] at h ⊢
      have ht : t ≠ [] := by
        intro he
        subst he
        simp [List.dropWhile] at h
      rw [ih h]
      cases t with
      | nil => exact absurd rfl ht
      | cons b t2 => rw [List.getLast?_cons_cons]
    · rw [List.dropWhile_cons, if_neg hpa]

theorem pstrip_head?_not_ws (s : List Char) (c : Char)
    (h : (pstrip s).head? = some c) : c.isWhitespace = false := by
  unfold pstrip at h
  rw [List.head?_reverse] at h
  have hune : (s.dropWhile Char.isWhitespace).reverse.dropWhile Char.isWhitespace ≠ [] := by
    intro he
    rw [he] at h
    simp at h
  rw [getLast?_dropWhile Char.isWhitespace _ hune, List.getLast?_reverse] at h
  exact head?_dropWhile_false Char.isWhitespace s c h

theorem pstrip_getLast?_not_ws (s : List Char) (c : Char)
    (h : (pstrip s).getLast? = some c) : c.isWhitespace = false := by
  unfold pstrip at h
  rw [List.getLast?_reverse] at h
  exact head?_dropWhile_false Char.isWhitespace _ c h

theorem pstrip_ne_nil (s : List Char) (h : s.any (fun c => !c.isWhitespace) = true) :
    pstrip s ≠ [] := by
  obtain ⟨c, hc, hnw⟩ := List.any_eq_true.mp h
  have hnw2 : c.isWhitespace = false := by simpa using hnw
  have h1 : c ∈ s.dropWhile Char.isWhitespace := mem_dropWhile_of_not _ s c hc hnw2
  have h2 : c ∈ (s.dropWhile Char.isWhitespace).reverse := List.mem_reverse.mpr h1
  have h3 := mem_dropWhile_of_not Char.isWhitespace _ c h2 hnw2
  have h4 : c ∈ pstrip s := List.mem_reverse.mpr h3
  intro he
  rw [he] at h4
  exact absurd h4 (List.not_mem_nil c)

/-- C9 counterexample: a provider call that succeeds with a whitespace-only
message content is a success returning the empty string — the OpenAI adapter
normalizes `(content or "").strip()` without rejecting the empty result, so a
successful call is not guaranteed a non-empty text. -/
theorem claim_C9_counterexample :
    openai_generate_post_content (Except.ok (some [' '])) = Except.ok ([] : List Char) :=
  rfl

/-- C9 (amended): every successful adapter text result is stripped of leading
and trailing whitespace (its first and last characters, when present, are
non-whitespace); it is non-empty whenever the raw provider text contains a
non-whitespace character — but a whitespace-only or missing raw content yields
an empty success result rather than an error. -/
theorem claim_C9_stripped_and_conditionally_nonempty :
    (∀ (raw : Option (List Char)) (s : List Char),
      openai_generate_post_content (Except.ok raw) = Except.ok s →
      (∀ c, s.head? = some c → c.isWhitespace = false) ∧
      (∀ c, s.getLast? = some c → c.isWhitespace = false) ∧
      ((raw.getD []).any (fun c => !c.isWhitespace) = true → s ≠ [])) ∧
    (∀ (text : Option (List Char)) (parts : List (List Char)) (s : List Char),
      gemini_extract_text text parts = Except.ok s →
      (∀ c, s.head? = some c → c.isWhitespace = false) ∧
      (∀ c, s.getLast? = some c → c.isWhitespace = false)) ∧
    (∀ (t : List Char) (parts : List (List Char)),
      t.any (fun c => !c.isWhitespace) = true →
      gemini_extract_text (some t) parts = Except.ok (pstrip t) ∧ pstrip t ≠ []) := by
  refine ⟨?_, ?_, ?_⟩
  · intro raw s h
    unfold openai_generate_post_content at h
    have hs : pstrip (raw.getD []) = s := by cases h; rfl
    subst hs
    exact ⟨fun c hc => pstrip_head?_not_ws _ c hc,
      fun c hc => pstrip_getLast?_not_ws _ c hc,
      fun hany => pstrip_ne_nil _ hany⟩
  · intro text parts s h
    unfold gemini_extract_text at h
    cases text with
    | some t =>
      cases ht : t.isEmpty with
      | false =>
        simp only [ht, Bool.not_false, if_true] at h
        have hs : pstrip t = s := by cases h; rfl
        subst hs
        exact ⟨fun c hc => pstrip_head?_not_ws _ c hc,
          fun c hc => pstrip_getLast?_not_ws _ c hc⟩
      | true =>
        simp only [ht, Bool.not_true, Bool.false_eq_true, if_false] at h
        cases hp : (parts.filter (fun p => !p.isEmpty)).isEmpty with
        | false =>
          simp only [hp, Bool.not_false, if_true] at h
          have hs : pstrip (geminiJoinParts parts) = s := by cases h; rfl
          subst hs
          exact ⟨fun c hc => pstrip_head?_not_ws _ c hc,
            fun c hc => pstrip_getLast?_not_ws _ c hc⟩
        | true =>
          simp only [hp, Bool.not_true, Bool.false_eq_true, if_false] at h
          exact absurd h (by simp)
    | none =>
      cases hp : (parts.filter (fun p => !p.isEmpty)).isEmpty with
      | false =>
        simp only [hp, Bool.not_false, if_true] at h
        have hs : pstrip (geminiJoinParts parts) = s := by cases h; rfl
        subst hs
        exact ⟨fun c hc => pstrip_head?_not_ws _ c hc,
          fun c hc => pstrip_getLast?_not_ws _ c hc⟩
      | true =>
        simp only [hp, Bool.not_true, Bool.false_eq_true, if_false] at h
        exact absurd h (by simp)
  · intro t parts hany
    have htne : t.isEmpty = false := by
      cases t
      · simp at hany
      · rfl
    constructor
    · unfold gemini_extract_text
      simp [htne]
    · exact pstrip_ne_nil t hany

/-- C9 witness: the raw OpenAI content " a " normalizes to the stripped,
non-empty text "a". -/
theorem claim_C9_witness :
    openai_generate_post_content (Except.ok (some [' ', 'a', ' '])) =
      Except.ok ['a'] ∧
    (['a'] : List Char) ≠ [] := by
  refine ⟨rfl, ?_⟩
  exact (claim_C9_stripped_and_conditionally_nonempty.1 (some [' ', 'a', ' ']) ['a']
    rfl).2.2 (by decide)

end FbAutomation
